import Mathlib

/-
Verification of the SpookyMart API gateway (src/api-gateway/server.js):
a shallow embedding of the gateway's health aggregation, reverse-proxy
routing, path rewriting, rate limiting and top-level error handling,
with theorems settling the specification's claims about them.
-/

namespace SpookyMartGateway

/-- Default product upstream base URL (server.js line 24). -/
def PRODUCT_SERVICE_URL : String := "http://localhost:3001"

/-- Default order upstream base URL (server.js line 25). -/
def ORDER_SERVICE_URL : String := "http://localhost:3002"

/-- Health-probe timeout in milliseconds (server.js line 110: timeout 5000). -/
def HEALTH_TIMEOUT_MS : Nat := 5000

/-- Rate-limit window length in milliseconds (server.js line 94: 15 minutes). -/
def WINDOW_MS : Nat := 15 * 60 * 1000

/-- Default rate-limit ceiling per window (server.js line 95). -/
def RATE_LIMIT_DEFAULT : Nat := 100

/-- Outcome of one health probe of an upstream: either the response arrived
within the timeout and signalled success, or the probe failed (axios rejects
on timeout, refused connection, or a non-success HTTP status); a failing
outcome carries the error message of the exception. -/
inductive ProbeOutcome where
  | success
  | timeout (msg : String)
  | connRefused (msg : String)
  | httpError (code : Nat) (msg : String)
deriving DecidableEq, Repr

/-- The error message carried by a failing probe outcome, none on success. -/
def probeErrorMessage : ProbeOutcome → Option String
  | .success => none
  | .timeout msg => some msg
  | .connRefused msg => some msg
  | .httpError _ msg => some msg

/-- One per-upstream health report, as built by healthCheck
(server.js lines 108-127). -/
structure HealthReport where
  name : String
  status : String
  url : String
  error : Option String
deriving DecidableEq, Repr

/-- The healthCheck function of server.js lines 108-127: a total function of
the probe outcome. On success it reports status healthy; in the catch branch
(timeout, refused connection, non-success status) it reports status unhealthy
with the error message recorded. It never propagates an exception: every
outcome is mapped to a HealthReport value. -/
def healthCheck (serviceUrl serviceName : String) (outcome : ProbeOutcome) :
    HealthReport :=
  match outcome with
  | .success =>
      { name := serviceName, status := "healthy", url := serviceUrl, error := none }
  | .timeout msg =>
      { name := serviceName, status := "unhealthy", url := serviceUrl, error := some msg }
  | .connRefused msg =>
      { name := serviceName, status := "unhealthy", url := serviceUrl, error := some msg }
  | .httpError _ msg =>
      { name := serviceName, status := "unhealthy", url := serviceUrl, error := some msg }

/-- The composite health response of the gateway: overall status, the HTTP
status code sent with it, and the services mapping (keys product and order). -/
structure CompositeHealth where
  status : String
  statusCode : Nat
  services : List (String × HealthReport)
deriving DecidableEq, Repr

/-- The GET /health handler of server.js lines 130-165, as a function of the
two probe outcomes: probes both upstreams, derives overallHealth (healthy iff
both reports are healthy, else degraded), sends 200 when healthy and 503
otherwise, and returns the services mapping with both reports. -/
def healthEndpoint (po oo : ProbeOutcome) : CompositeHealth :=
  let productHealth := healthCheck PRODUCT_SERVICE_URL "Product Service" po
  let orderHealth := healthCheck ORDER_SERVICE_URL "Order Service" oo
  let overallHealth :=
    if productHealth.status == "healthy" && orderHealth.status == "healthy"
    then "healthy" else "degraded"
  { status := overallHealth
    statusCode := if overallHealth == "healthy" then 200 else 503
    services := [("product", productHealth), ("order", orderHealth)] }

/-- Express mount-path matching, as used by app.use of server.js: a request
path matches a mount path when it equals it or extends it at a path-segment
boundary (mount followed by a slash). -/
def expressMountMatch (mount path : String) : Bool :=
  path == mount || (mount ++ "/").data.isPrefixOf path.data

/-- Whether the rate limiter applies: server.js line 105 mounts the limiter
at /api/, so exactly the paths under /api are rate limited. -/
def isApiPath (path : String) : Bool :=
  expressMountMatch "/api" path

/-- The terminal handler a request reaches in the gateway, one constructor
per route registration of server.js: the GET /health endpoint (line 130),
the GET /api/debug/connectivity endpoint (line 168), the GET / info endpoint
(line 217), the two proxies (lines 317-318) and the catch-all 404 handler
(line 321). The debug logging middleware on /api/orders (line 302) calls
next() and is not terminal. -/
inductive Handler where
  | info
  | health
  | debugConnectivity
  | productProxy
  | orderProxy
  | notFound
deriving DecidableEq, Repr

/-- Route matching in the registration order of server.js: the method-bound
GET endpoints match their exact paths, then the proxies match their mount
prefixes for any method, and everything else falls to the 404 handler. -/
def route (method path : String) : Handler :=
  if method == "GET" && path == "/health" then .health
  else if method == "GET" && path == "/api/debug/connectivity" then .debugConnectivity
  else if method == "GET" && path == "/" then .info
  else if expressMountMatch "/api/products" path then .productProxy
  else if expressMountMatch "/api/orders" path then .orderProxy
  else .notFound

/-- One pathRewrite rule of http-proxy-middleware as configured in server.js:
the pattern is an anchored prefix regex, so when the pattern matches the
start of the path it is replaced by the replacement, else the path is kept. -/
def pathRewriteApply (pattern replacement path : String) : String :=
  if pattern.data.isPrefixOf path.data
  then ⟨replacement.data ++ path.data.drop pattern.data.length⟩
  else path

/-- The product proxy rewrite of server.js lines 259-261. -/
def productPathRewrite (path : String) : String :=
  pathRewriteApply "/api/products" "/api/products" path

/-- The order proxy rewrite of server.js lines 282-284. -/
def orderPathRewrite (path : String) : String :=
  pathRewriteApply "/api/orders" "/api/orders/" path

/-- An inbound request as the proxy layer sees it. -/
structure Request where
  method : String
  path : String
  body : String
deriving DecidableEq, Repr

/-- The request a proxy sends upstream. -/
structure ForwardedRequest where
  target : String
  method : String
  path : String
  body : String
deriving DecidableEq, Repr

/-- Forwarding by createProxyMiddleware: the request goes to the configured
target with its path rewritten by the pathRewrite rule, method and body
unchanged. -/
def proxyForward (target : String) (rewrite : String → String) (r : Request) :
    ForwardedRequest :=
  { target := target, method := r.method, path := rewrite r.path, body := r.body }

/-- Body of a 503 response sent by a proxy onError handler. -/
structure ServiceUnavailableBody where
  error : String
  message : String
  service : String
deriving DecidableEq, Repr

/-- The onError response of the product proxy (server.js lines 262-269). -/
def productProxyErrorResponse : Nat × ServiceUnavailableBody :=
  (503, { error := "Service Unavailable"
          message := "Product Service is currently unavailable"
          service := "product-service" })

/-- The onError response of the order proxy (server.js lines 285-292). -/
def orderProxyErrorResponse : Nat × ServiceUnavailableBody :=
  (503, { error := "Service Unavailable"
          message := "Order Service is currently unavailable"
          service := "order-service" })

/-- The response the gateway sends when the handler is a proxy and its
upstream is unreachable or times out; none for non-proxy handlers. -/
def proxyErrorResponse : Handler → Option (Nat × ServiceUnavailableBody)
  | .productProxy => some productProxyErrorResponse
  | .orderProxy => some orderProxyErrorResponse
  | _ => none

/-- Body of the catch-all 404 response (server.js lines 321-334). -/
structure NotFoundBody where
  error : String
  message : String
  availableEndpoints : List String
deriving DecidableEq, Repr

/-- The catch-all 404 handler of server.js lines 321-334. -/
def notFoundHandler (method originalUrl : String) : Nat × NotFoundBody :=
  (404, { error := "Not Found"
          message := "Route " ++ method ++ " " ++ originalUrl ++ " not found"
          availableEndpoints :=
            ["GET /", "GET /health", "GET /api/products", "POST /api/products",
             "GET /api/orders", "POST /api/orders"] })

/-- Body of the rate-limit rejection response (server.js lines 96-100). -/
structure RateLimitBody where
  error : String
  message : String
  retryAfter : String
deriving DecidableEq, Repr

/-- The rejection response of the limiter. The body is the message option of
server.js lines 96-100. Modelled from the spec: the rejection status code
comes from the express-rate-limit dependency (a 429-equivalent rate-limit
error), whose source is not part of this repository. -/
def rateLimitedResponse : Nat × RateLimitBody :=
  (429, { error := "Too Many Requests"
          message := "Rate limit exceeded. Please try again later."
          retryAfter := "15 minutes" })

/-- One per-client rate-limit window: when it started and how many requests
the client has issued in it. -/
structure RateLimitWindow where
  windowStart : Nat
  count : Nat
deriving DecidableEq, Repr

/-- The limiter's in-memory per-client-identity state. -/
def RateLimitState := String → Option RateLimitWindow

/-- Modelled from the spec: the fixed-window counting of the
express-rate-limit dependency configured at server.js lines 93-103, whose
source is not part of this repository. On a request at wall-clock time now:
with no window, or with the current window expired (elapsed time at least
the window length), start a fresh window with count one and allow; otherwise
increment the count and reject exactly when it exceeds the ceiling. -/
def rateLimitHit (windowMs maxReq now : Nat) :
    Option RateLimitWindow → Bool × RateLimitWindow
  | none => (true, { windowStart := now, count := 1 })
  | some w =>
      if windowMs ≤ now - w.windowStart then
        (true, { windowStart := now, count := 1 })
      else
        if maxReq < w.count + 1 then
          (false, { windowStart := w.windowStart, count := w.count + 1 })
        else
          (true, { windowStart := w.windowStart, count := w.count + 1 })

/-- One limiter step for a request from a client identity: applies
rateLimitHit to that client's window and stores the updated window under
that client, leaving every other client's entry untouched. -/
def limiterStep (windowMs maxReq : Nat) (st : RateLimitState) (client : String)
    (now : Nat) : Bool × RateLimitState :=
  let r := rateLimitHit windowMs maxReq now (st client)
  (r.1, fun c => if c = client then some r.2 else st c)

/-- A sequence of limiter steps for requests from one client at the given
times, collecting the allow/reject decisions. -/
def runRequests (windowMs maxReq : Nat) (st : RateLimitState) (client : String) :
    List Nat → List Bool × RateLimitState
  | [] => ([], st)
  | t :: ts =>
      let r := limiterStep windowMs maxReq st client t
      let rest := runRequests windowMs maxReq r.2 client ts
      (r.1 :: rest.1, rest.2)

/-- What the gateway does with one inbound request: either the limiter
rejects it, or it reaches its terminal handler. -/
inductive GatewayOutcome where
  | rateLimited
  | routed (h : Handler)
deriving DecidableEq, Repr

/-- The middleware pipeline of server.js for one request: requests under
/api pass the limiter first (line 105) and reach their handler only when
allowed; other paths are never rate limited. -/
def gatewayStep (windowMs maxReq : Nat) (st : RateLimitState) (client : String)
    (now : Nat) (method path : String) : GatewayOutcome × RateLimitState :=
  if isApiPath path then
    let r := limiterStep windowMs maxReq st client now
    if r.1 then (.routed (route method path), r.2) else (.rateLimited, r.2)
  else (.routed (route method path), st)

/-- The upstream base URL a terminal handler forwards to: only the two
proxies forward anywhere. -/
def forwardTarget : Handler → Option String
  | .productProxy => some PRODUCT_SERVICE_URL
  | .orderProxy => some ORDER_SERVICE_URL
  | _ => none

/-- The upstream a gateway outcome forwards to: a rate-limited request is
answered by the limiter and never reaches any upstream. -/
def outcomeForward : GatewayOutcome → Option String
  | .rateLimited => none
  | .routed h => forwardTarget h

/-- An error object as seen by the global error handler: its optional status
field (zero standing for a falsy status), its message and its stack. -/
structure ErrObject where
  status : Option Nat
  message : String
  stack : String
deriving DecidableEq, Repr

/-- The response of the global error handler. -/
structure ErrorHandlerResponse where
  status : Nat
  error : String
  message : String
  stack : Option String
deriving DecidableEq, Repr

/-- The global error handler of server.js lines 337-345: the response status
is err.status when truthy and 500 otherwise; the body carries error
Internal Server Error, the generic message in production and err.message
otherwise, and the stack only outside production. -/
def globalErrorHandler (nodeEnv : String) (e : ErrObject) : ErrorHandlerResponse :=
  { status :=
      match e.status with
      | some s => if s = 0 then 500 else s
      | none => 500
    error := "Internal Server Error"
    message := if nodeEnv = "production" then "Something went wrong" else e.message
    stack := if nodeEnv = "production" then none else some e.stack }

/-- A list is a prefix of itself followed by anything. -/
theorem isPrefixOf_append_self (l r : List Char) : l.isPrefixOf (l ++ r) = true := by
  simp [ List.isPrefixOf_iff_prefix]

/-- Any request whose path matches the product mount prefix reaches the
product proxy, whatever its method. -/
theorem route_products_of_mount (method path : String)
    (h : expressMountMatch "/api/products" path = true) :
    route method path = .productProxy := by
  have hh : path ≠ "/health" := by rintro rfl; exact absurd h (by decide)
  have hd : path ≠ "/api/debug/connectivity" := by rintro rfl; exact absurd h (by decide)
  have hr : path ≠ "/" := by rintro rfl; exact absurd h (by decide)
  simp [route, hh, hd, hr, h]

/-- The two proxy mount prefixes are disjoint: a path matching the order
mount never matches the product mount. -/
theorem expressMountMatch_orders_not_products (path : String)
    (h : expressMountMatch "/api/orders" path = true) :
    expressMountMatch "/api/products" path = false := by
  unfold expressMountMatch at h
  rcases Bool.or_eq_true _ _ |>.mp h with h1 | h2
  · have : path = "/api/orders" := by simpa using h1
    subst this
    decide
  · have hpre : ("/api/orders/").data <+: path.data := by
      simpa [ List.isPrefixOf_iff_prefix] using h2
    obtain ⟨rest, hrest⟩ := hpre
    obtain ⟨d⟩ := path
    have hdata : d = "/api/orders/".data ++ rest := hrest.symm
    subst hdata
    rfl

/-- Any request whose path matches the order mount prefix reaches the order
proxy, whatever its method. -/
theorem route_orders_of_mount (method path : String)
    (h : expressMountMatch "/api/orders" path = true) :
    route method path = .orderProxy := by
  have hh : path ≠ "/health" := by rintro rfl; exact absurd h (by decide)
  have hd : path ≠ "/api/debug/connectivity" := by rintro rfl; exact absurd h (by decide)
  have hr : path ≠ "/" := by rintro rfl; exact absurd h (by decide)
  simp [route, hh, hd, hr, h, expressMountMatch_orders_not_products path h]

/-- Counting invariant of the limiter inside one window: starting from a
window opened at t0 with count k, a run of requests at times that all fall
inside the window yields one decision per request, allowing the j-th of the
run exactly when the count it reaches stays within the ceiling, and leaves
the window opened at t0 with the count grown by the length of the run. -/
theorem runRequests_inWindow (windowMs maxReq : Nat) :
    ∀ (ts : List Nat) (st : RateLimitState) (client : String) (t0 k : Nat),
    st client = some { windowStart := t0, count := k } →
    (∀ t ∈ ts, t - t0 < windowMs) →
    (runRequests windowMs maxReq st client ts).1
        = (List.range ts.length).map (fun j => decide (k + j + 1 ≤ maxReq))
      ∧ (runRequests windowMs maxReq st client ts).2 client
        = some { windowStart := t0, count := k + ts.length } := by
  intro ts
  induction ts with
  | nil => intro st client t0 k hst _; simpa [runRequests] using hst
  | cons t ts ih =>
      intro st client t0 k hst hin
      have htw : ¬ windowMs ≤ t - t0 := by
        have := hin t (by simp)
        omega
      have hstep :
          limiterStep windowMs maxReq st client t
            = (decide (k + 1 ≤ maxReq),
               fun c => if c = client
                 then some { windowStart := t0, count := k + 1 } else st c) := by
        simp [limiterStep, rateLimitHit, hst, htw]
        constructor
        · by_cases h : maxReq < k + 1
          · simp [h]
          · simp [h]
            omega
        · funext c
          by_cases hc : c = client
          · simp [hc]
            by_cases h : maxReq < k + 1 <;> simp [h]
          · simp [hc]
      have hnext : (fun c => if c = client
          then some { windowStart := t0, count := k + 1 } else st c) client
            = some { windowStart := t0, count := k + 1 } := by simp
      have hrec := ih
        (fun c => if c = client then some { windowStart := t0, count := k + 1 } else st c)
        client t0 (k + 1) hnext (fun u hu => hin u (by simp [hu]))
      simp only [runRequests, hstep]
      refine ⟨?_, by simpa [Nat.add_assoc, Nat.add_comm 1 ts.length] using hrec.2⟩
      simp [hrec.1, List.range_succ_eq_map, Function.comp]
      intro a _
      omega

/-- A run of requests from one client never touches another client's
limiter entry. -/
theorem runRequests_other_client (windowMs maxReq : Nat) :
    ∀ (ts : List Nat) (st : RateLimitState) (a b : String), a ≠ b →
    (runRequests windowMs maxReq st a ts).2 b = st b := by
  intro ts
  induction ts with
  | nil => intro st a b _; rfl
  | cons t ts ih =>
      intro st a b hab
      simp only [runRequests]
      rw [ih _ a b hab]
      simp [limiterStep, Ne.symm hab]

/-- The anchored order rewrite on any path extending its pattern: the
matched prefix is replaced by the replacement and the rest of the path is
kept verbatim. -/
theorem orderRewrite_extends (rest : String) :
    orderPathRewrite ("/api/orders" ++ rest) = "/api/orders/" ++ rest := by
  unfold orderPathRewrite pathRewriteApply
  obtain ⟨d⟩ := rest
  simp [String.data_append, isPrefixOf_append_self]
  apply String.ext
  simp [String.data_append]

/-- C1: for every pair of probe results for the two configured upstreams,
GET /health returns composite status healthy with HTTP 200 exactly when
both upstream probes report healthy; otherwise composite status degraded
with HTTP 503; and the entries of the services mapping whose report is
unhealthy are exactly the upstreams whose probe failed, each such report
carrying an error. -/
theorem health_composite_iff_all_upstreams_healthy (po oo : ProbeOutcome) :
    ((healthEndpoint po oo).status = "healthy" ∧ (healthEndpoint po oo).statusCode = 200
      ↔ (healthCheck PRODUCT_SERVICE_URL "Product Service" po).status = "healthy"
        ∧ (healthCheck ORDER_SERVICE_URL "Order Service" oo).status = "healthy")
    ∧ ((healthEndpoint po oo).status = "degraded" ∧ (healthEndpoint po oo).statusCode = 503
      ↔ ¬((healthCheck PRODUCT_SERVICE_URL "Product Service" po).status = "healthy"
        ∧ (healthCheck ORDER_SERVICE_URL "Order Service" oo).status = "healthy"))
    ∧ (((healthEndpoint po oo).services.filter
          (fun p => p.2.status == "unhealthy")).map Prod.fst
        = (if po = ProbeOutcome.success then [] else ["product"])
          ++ (if oo = ProbeOutcome.success then [] else ["order"]))
    ∧ (((healthEndpoint po oo).services.filter
          (fun p => p.2.status == "unhealthy")).all
            (fun p => p.2.error.isSome) = true) := by
  cases po <;> cases oo <;> simp [healthEndpoint, healthCheck]

/-- C6: for every upstream target and every probe outcome (timely success,
timeout against the 5000 ms budget, refused connection, or a non-success
HTTP status), healthCheck returns a HealthReport for that upstream; the
report is healthy exactly on timely success and unhealthy otherwise, with
the failure message recorded in its error field. The embedding of
healthCheck is a total function: no outcome escapes as an exception. -/
theorem healthCheck_total_never_throws (url name : String) (o : ProbeOutcome) :
    (healthCheck url name o).name = name
    ∧ (healthCheck url name o).url = url
    ∧ ((healthCheck url name o).status = "healthy" ↔ o = .success)
    ∧ ((healthCheck url name o).status = "unhealthy" ↔ o ≠ .success)
    ∧ (healthCheck url name o).error = probeErrorMessage o
    ∧ ((healthCheck url name o).error.isSome ↔ o ≠ .success)
    ∧ HEALTH_TIMEOUT_MS = 5000 := by
  cases o <;> simp [healthCheck, probeErrorMessage, HEALTH_TIMEOUT_MS]

/-- C5: a request to /api/products/prod-001 reaches the product proxy and is
forwarded with its path unchanged, method and body preserved; a POST to
/api/orders reaches the order proxy and is forwarded with method and body
preserved and the path rewritten to the trailing-slash form /api/orders/. -/
theorem proxy_forward_rewrite (method body : String) :
    route method "/api/products/prod-001" = .productProxy
    ∧ proxyForward PRODUCT_SERVICE_URL productPathRewrite
        { method := method, path := "/api/products/prod-001", body := body }
      = { target := PRODUCT_SERVICE_URL, method := method,
          path := "/api/products/prod-001", body := body }
    ∧ route "POST" "/api/orders" = .orderProxy
    ∧ proxyForward ORDER_SERVICE_URL orderPathRewrite
        { method := "POST", path := "/api/orders", body := body }
      = { target := ORDER_SERVICE_URL, method := "POST",
          path := "/api/orders/", body := body } :=
  ⟨route_products_of_mount method _ (by decide), rfl, by decide, rfl⟩

/-- C10: the order rewrite replaces the anchored prefix /api/orders with
/api/orders/, so every path strictly extending the prefix below a segment
boundary is forwarded with a double slash after the collection segment,
while the bare collection path gains exactly one trailing slash. -/
theorem order_rewrite_trailing_and_double_slash (rest : String) :
    orderPathRewrite ("/api/orders" ++ rest) = "/api/orders/" ++ rest
    ∧ (∀ tail : String,
        orderPathRewrite ("/api/orders/" ++ tail) = "/api/orders//" ++ tail)
    ∧ orderPathRewrite "/api/orders/ord-001" = "/api/orders//ord-001"
    ∧ orderPathRewrite "/api/orders/ord-001/status" = "/api/orders//ord-001/status"
    ∧ orderPathRewrite "/api/orders" = "/api/orders/" := by
  refine ⟨orderRewrite_extends rest, ?_, by decide, by decide, by decide⟩
  intro tail
  have h1 := orderRewrite_extends ("/" ++ tail)
  have he1 : ("/api/orders" ++ ("/" ++ tail) : String) = "/api/orders/" ++ tail := rfl
  have he2 : ("/api/orders/" ++ ("/" ++ tail) : String) = "/api/orders//" ++ tail := rfl
  rw [he1, he2] at h1
  exact h1

/-- C2: every request whose path lies under the /api/products mount reaches
the product proxy, and when its upstream is unreachable or times out the
gateway answers 503 with the exact body error Service Unavailable, a
message, and service product-service; likewise under /api/orders with
service order-service. -/
theorem proxy_unavailable_names_failing_upstream (method path : String) :
    (expressMountMatch "/api/products" path = true →
      route method path = .productProxy
      ∧ proxyErrorResponse (route method path)
        = some (503, { error := "Service Unavailable"
                       message := "Product Service is currently unavailable"
                       service := "product-service" }))
    ∧ (expressMountMatch "/api/orders" path = true →
      route method path = .orderProxy
      ∧ proxyErrorResponse (route method path)
        = some (503, { error := "Service Unavailable"
                       message := "Order Service is currently unavailable"
                       service := "order-service" })) := by
  constructor
  · intro h
    have hr := route_products_of_mount method path h
    exact ⟨hr, by rw [hr]; rfl⟩
  · intro h
    have hr := route_orders_of_mount method path h
    exact ⟨hr, by rw [hr]; rfl⟩

/-- Witness for C2 at a concrete product path and a concrete order path. -/
theorem proxy_unavailable_names_failing_upstream_witness :
    (route "GET" "/api/products/prod-001" = .productProxy
      ∧ proxyErrorResponse (route "GET" "/api/products/prod-001")
        = some (503, { error := "Service Unavailable"
                       message := "Product Service is currently unavailable"
                       service := "product-service" }))
    ∧ (route "POST" "/api/orders/ord-001" = .orderProxy
      ∧ proxyErrorResponse (route "POST" "/api/orders/ord-001")
        = some (503, { error := "Service Unavailable"
                       message := "Order Service is currently unavailable"
                       service := "order-service" })) :=
  ⟨(proxy_unavailable_names_failing_upstream "GET" "/api/products/prod-001").1 (by decide),
   (proxy_unavailable_names_failing_upstream "POST" "/api/orders/ord-001").2 (by decide)⟩

/-- C3: a client with no window who issues a run of requests all inside one
window gets its first request allowed and, of the remaining run, exactly
those whose running count stays within the ceiling: with ceiling maxReq,
requests one through maxReq are allowed and request maxReq plus one is
rejected. A rejected request on an /api path is answered by the limiter
with the 429 rate-limit response and forwarded to no upstream; an allowed
one proceeds to its handler. -/
theorem rate_limit_ceiling_within_window (maxReq : Nat) (st : RateLimitState)
    (client : String) (t0 : Nat) (ts : List Nat)
    (hfresh : st client = none)
    (hwin : ∀ t ∈ ts, t - t0 < WINDOW_MS) :
    (runRequests WINDOW_MS maxReq st client (t0 :: ts)).1
      = true :: (List.range ts.length).map (fun j => decide (j + 2 ≤ maxReq))
    ∧ (∀ (st2 : RateLimitState) (c2 : String) (now : Nat) (method path : String),
        isApiPath path = true →
        ((limiterStep WINDOW_MS maxReq st2 c2 now).1 = false →
          (gatewayStep WINDOW_MS maxReq st2 c2 now method path).1 = .rateLimited
          ∧ outcomeForward (gatewayStep WINDOW_MS maxReq st2 c2 now method path).1 = none
          ∧ rateLimitedResponse.1 = 429)
        ∧ ((limiterStep WINDOW_MS maxReq st2 c2 now).1 = true →
          (gatewayStep WINDOW_MS maxReq st2 c2 now method path).1
            = .routed (route method path))) := by
  have hstep : limiterStep WINDOW_MS maxReq st client t0
      = (true, fun c => if c = client
          then some { windowStart := t0, count := 1 } else st c) := by
    simp [limiterStep, rateLimitHit, hfresh]
  have hrec := runRequests_inWindow WINDOW_MS maxReq ts
    (fun c => if c = client then some { windowStart := t0, count := 1 } else st c)
    client t0 1 (by simp) hwin
  constructor
  · have hfun : (fun j => decide (1 + j + 1 ≤ maxReq))
        = (fun j : Nat => decide (j + 2 ≤ maxReq)) := by
      funext j
      rw [decide_eq_decide]
      omega
    simp only [runRequests, hstep]
    rw [hrec.1, hfun]
  · intro st2 c2 now method path hapi
    constructor
    · intro hfalse
      refine ⟨by simp [gatewayStep, hapi, hfalse], by simp [gatewayStep, hapi, hfalse, outcomeForward], rfl⟩
    · intro htrue
      simp [gatewayStep, hapi, htrue]

/-- Witness for C3: ceiling two, four requests inside one window; the run
allows the first two and rejects the third and fourth; the limiter and
gateway conjunct instantiated alongside. -/
theorem rate_limit_ceiling_within_window_witness :
    (runRequests WINDOW_MS 2 (fun _ => none) "203.0.113.7" (0 :: [1, 2, 3])).1
      = true :: (List.range [1, 2, 3].length).map (fun j => decide (j + 2 ≤ 2))
    ∧ (∀ (st2 : RateLimitState) (c2 : String) (now : Nat) (method path : String),
        isApiPath path = true →
        ((limiterStep WINDOW_MS 2 st2 c2 now).1 = false →
          (gatewayStep WINDOW_MS 2 st2 c2 now method path).1 = .rateLimited
          ∧ outcomeForward (gatewayStep WINDOW_MS 2 st2 c2 now method path).1 = none
          ∧ rateLimitedResponse.1 = 429)
        ∧ ((limiterStep WINDOW_MS 2 st2 c2 now).1 = true →
          (gatewayStep WINDOW_MS 2 st2 c2 now method path).1
            = .routed (route method path))) :=
  rate_limit_ceiling_within_window 2 (fun _ => none) "203.0.113.7" 0 [1, 2, 3]
    rfl (by decide)

/-- C4: once the window has elapsed (wall-clock elapsed at least the window
length), the client's next request starts a fresh window with count one and
is allowed, whatever the prior count was; on an /api path it proceeds to
its handler. -/
theorem rate_limit_window_reset_allows (maxReq : Nat) (st : RateLimitState)
    (client : String) (t0 c now : Nat)
    (hw : st client = some { windowStart := t0, count := c })
    (helapsed : WINDOW_MS ≤ now - t0) :
    (limiterStep WINDOW_MS maxReq st client now).1 = true
    ∧ (limiterStep WINDOW_MS maxReq st client now).2 client
        = some { windowStart := now, count := 1 }
    ∧ (∀ method path, isApiPath path = true →
        (gatewayStep WINDOW_MS maxReq st client now method path).1
          = .routed (route method path)
        ∧ (gatewayStep WINDOW_MS maxReq st client now method path).2 client
          = some { windowStart := now, count := 1 }) := by
  have h1 : limiterStep WINDOW_MS maxReq st client now
      = (true, fun cl => if cl = client
          then some { windowStart := now, count := 1 } else st cl) := by
    simp [limiterStep, rateLimitHit, hw, helapsed]
  refine ⟨by simp [h1], by simp [h1], ?_⟩
  intro method path hapi
  constructor
  · simp [gatewayStep, hapi, h1]
  · simp [gatewayStep, hapi, h1]

/-- Witness for C4: a client that issued five hundred requests in the prior
window is allowed again the moment the window has elapsed. -/
theorem rate_limit_window_reset_allows_witness :
    (limiterStep WINDOW_MS 100 (fun _ => some { windowStart := 0, count := 500 })
        "203.0.113.8" WINDOW_MS).1 = true
    ∧ (limiterStep WINDOW_MS 100 (fun _ => some { windowStart := 0, count := 500 })
        "203.0.113.8" WINDOW_MS).2 "203.0.113.8"
        = some { windowStart := WINDOW_MS, count := 1 }
    ∧ (∀ method path, isApiPath path = true →
        (gatewayStep WINDOW_MS 100 (fun _ => some { windowStart := 0, count := 500 })
            "203.0.113.8" WINDOW_MS method path).1
          = .routed (route method path)
        ∧ (gatewayStep WINDOW_MS 100 (fun _ => some { windowStart := 0, count := 500 })
            "203.0.113.8" WINDOW_MS method path).2 "203.0.113.8"
          = some { windowStart := WINDOW_MS, count := 1 }) :=
  rate_limit_window_reset_allows 100 (fun _ => some { windowStart := 0, count := 500 })
    "203.0.113.8" 0 500 WINDOW_MS rfl (by decide)

/-- C7 counterexample: the path /api/debug/connectivity is neither the root,
nor /health, nor under either proxy mount, yet a GET for it is handled by
the gateway's own debug connectivity endpoint, not by the 404 handler. -/
theorem debug_connectivity_handled_not_404 :
    ("/api/debug/connectivity" ≠ "/"
      ∧ "/api/debug/connectivity" ≠ "/health"
      ∧ expressMountMatch "/api/products" "/api/debug/connectivity" = false
      ∧ expressMountMatch "/api/orders" "/api/debug/connectivity" = false)
    ∧ route "GET" "/api/debug/connectivity" = .debugConnectivity
    ∧ route "GET" "/api/debug/connectivity" ≠ .notFound := by decide

/-- C7 amended: every request whose path is not the root, not /health, not
under either proxy mount, and which is not a GET of /api/debug/connectivity,
falls to the catch-all handler and gets 404 with the body listing the known
endpoints. -/
theorem unmatched_path_returns_404 (method path : String)
    (hroot : path ≠ "/")
    (hhealth : path ≠ "/health")
    (hprod : expressMountMatch "/api/products" path = false)
    (hord : expressMountMatch "/api/orders" path = false)
    (hdebug : ¬(method = "GET" ∧ path = "/api/debug/connectivity")) :
    route method path = .notFound
    ∧ (notFoundHandler method path).1 = 404
    ∧ (notFoundHandler method path).2.error = "Not Found"
    ∧ (notFoundHandler method path).2.message
        = "Route " ++ method ++ " " ++ path ++ " not found"
    ∧ (notFoundHandler method path).2.availableEndpoints
        = ["GET /", "GET /health", "GET /api/products", "POST /api/products",
           "GET /api/orders", "POST /api/orders"] := by
  refine ⟨?_, rfl, rfl, rfl, rfl⟩
  simp [route, hroot, hhealth, hprod, hord, hdebug]

/-- Witness for C7 amended at a concrete unknown path. -/
theorem unmatched_path_returns_404_witness :
    route "GET" "/totally/unknown" = .notFound
    ∧ (notFoundHandler "GET" "/totally/unknown").1 = 404
    ∧ (notFoundHandler "GET" "/totally/unknown").2.error = "Not Found"
    ∧ (notFoundHandler "GET" "/totally/unknown").2.message
        = "Route " ++ "GET" ++ " " ++ "/totally/unknown" ++ " not found"
    ∧ (notFoundHandler "GET" "/totally/unknown").2.availableEndpoints
        = ["GET /", "GET /health", "GET /api/products", "POST /api/products",
           "GET /api/orders", "POST /api/orders"] :=
  unmatched_path_returns_404 "GET" "/totally/unknown"
    (by decide) (by decide) (by decide) (by decide) (by decide)

/-- C8 counterexample: an error carrying its own status reaches the global
handler and the response keeps that status instead of 500. -/
theorem error_handler_status_not_500_counterexample :
    (globalErrorHandler "development"
        { status := some 404, message := "boom", stack := "trace" }).status = 404
    ∧ (globalErrorHandler "development"
        { status := some 404, message := "boom", stack := "trace" }).status ≠ 500 := by
  decide

/-- C8 amended: the global handler replies with the error's own status when
it carries a truthy one and with 500 otherwise; the body always carries
error Internal Server Error, the generic message exactly in production and
the error's own message otherwise, and the stack only outside production. -/
theorem error_handler_response_shape (nodeEnv : String) (e : ErrObject) :
    (globalErrorHandler nodeEnv e).error = "Internal Server Error"
    ∧ ((globalErrorHandler nodeEnv e).status = 500
        ↔ (e.status = none ∨ e.status = some 0 ∨ e.status = some 500))
    ∧ (∀ s, e.status = some s → 0 < s → (globalErrorHandler nodeEnv e).status = s)
    ∧ (globalErrorHandler nodeEnv e).message
        = (if nodeEnv = "production" then "Something went wrong" else e.message)
    ∧ (globalErrorHandler nodeEnv e).stack
        = (if nodeEnv = "production" then none else some e.stack) := by
  refine ⟨rfl, ?_, ?_, rfl, rfl⟩
  · rcases e with ⟨st, msg, stk⟩
    rcases st with _ | s
    · simp [globalErrorHandler]
    · by_cases hs : s = 0
      · subst hs
        simp [globalErrorHandler]
      · simp [globalErrorHandler, hs]
  · intro s hs hpos
    have hz : s ≠ 0 := by omega
    simp [globalErrorHandler, hs, hz]

/-- Witness for C8 amended in production mode with a status-less error. -/
theorem error_handler_response_shape_witness :
    (globalErrorHandler "production"
        { status := none, message := "boom", stack := "trace" }).error
      = "Internal Server Error"
    ∧ ((globalErrorHandler "production"
          { status := none, message := "boom", stack := "trace" }).status = 500
        ↔ ((none : Option Nat) = none ∨ (none : Option Nat) = some 0
            ∨ (none : Option Nat) = some 500))
    ∧ (∀ s, (none : Option Nat) = some s → 0 < s →
        (globalErrorHandler "production"
          { status := none, message := "boom", stack := "trace" }).status = s)
    ∧ (globalErrorHandler "production"
        { status := none, message := "boom", stack := "trace" }).message
      = (if ("production" : String) = "production" then "Something went wrong" else "boom")
    ∧ (globalErrorHandler "production"
        { status := none, message := "boom", stack := "trace" }).stack
      = (if ("production" : String) = "production" then none else some "trace") :=
  error_handler_response_shape "production"
    { status := none, message := "boom", stack := "trace" }

/-- C9: the limiter does not let one client identity interfere with another:
any run of requests by client a leaves client b's window entry untouched and
b's next decision is the same as if a had issued nothing. -/
theorem rate_limiter_noninterference (maxReq : Nat) (st : RateLimitState)
    (a b : String) (ts : List Nat) (hab : a ≠ b) :
    (runRequests WINDOW_MS maxReq st a ts).2 b = st b
    ∧ (∀ now,
        (limiterStep WINDOW_MS maxReq (runRequests WINDOW_MS maxReq st a ts).2 b now).1
          = (limiterStep WINDOW_MS maxReq st b now).1) := by
  have h := runRequests_other_client WINDOW_MS maxReq ts st a b hab
  exact ⟨h, fun now => by simp [limiterStep, h]⟩

/-- Witness for C9: one client exceeding a ceiling of two with four requests
leaves the other client's entry and decision unchanged. -/
theorem rate_limiter_noninterference_witness :
    (runRequests WINDOW_MS 2 (fun _ => none) "198.51.100.1" [0, 0, 0, 0]).2 "198.51.100.2"
      = (fun _ => none : RateLimitState) "198.51.100.2"
    ∧ (∀ now,
        (limiterStep WINDOW_MS 2
            (runRequests WINDOW_MS 2 (fun _ => none) "198.51.100.1" [0, 0, 0, 0]).2
            "198.51.100.2" now).1
          = (limiterStep WINDOW_MS 2 (fun _ => none) "198.51.100.2" now).1) :=
  rate_limiter_noninterference 2 (fun _ => none) "198.51.100.1" "198.51.100.2"
    [0, 0, 0, 0] (by decide)

end SpookyMartGateway
